import Mathlib

/-!
Shallow embedding of the GPU rendering layer of wlx-overlay-s
(src/graphics.rs): DMA-buf zero-copy texture import, physical-device
selection, buffer upload, pass recording, and the blocking submit path.

Conventions of the embedding:
* machine integers (u32, usize, RawFd) are modelled as Nat;
* f32 arithmetic in the quad helper is modelled by exact rationals;
* driver-side object creation that the source unwraps (RawImage::new,
  find_memory_type_index, DeviceMemory::import, File::try_clone) is
  modelled as total: its failure is environment-dependent, not decided
  by the frame data, and the source aborts on it;
* the success of RawImage::bind_memory, which the source handles with
  an Option, is an explicit boolean parameter;
* the process-wide file-descriptor table is an explicit Finset Nat of
  open descriptors, threaded through the import operation.
-/

/-- DRM four-character code, chars A B 2 4 packed little-endian. -/
def DRM_FORMAT_ABGR8888 : Nat := 0x34324241

/-- DRM four-character code, chars X B 2 4 packed little-endian. -/
def DRM_FORMAT_XBGR8888 : Nat := 0x34324258

/-- DRM four-character code, chars A R 2 4 packed little-endian. -/
def DRM_FORMAT_ARGB8888 : Nat := 0x34325241

/-- DRM four-character code, chars X R 2 4 packed little-endian. -/
def DRM_FORMAT_XRGB8888 : Nat := 0x34325852

/-- Vulkan pixel formats used by graphics.rs. -/
inductive Format
  | R8G8B8A8_UNORM
  | B8G8R8A8_UNORM
deriving DecidableEq, Repr

/-- One plane of a DMA-buf frame descriptor (wlx_capture FramePlane):
optional raw file descriptor, byte offset, byte stride. -/
structure FramePlane where
  fd : Option Nat
  offset : Nat
  stride : Nat
deriving DecidableEq, Repr

instance : Inhabited FramePlane := ⟨⟨none, 0, 0⟩⟩

/-- Frame format of a DMA-buf frame descriptor: extent, four-character
code and tiling modifier. -/
structure FrameFormat where
  width : Nat
  height : Nat
  fourcc : Nat
  modifier : Nat
deriving DecidableEq, Repr

/-- DMA-buf frame descriptor as received from the capture collaborator. -/
structure DmabufFrame where
  format : FrameFormat
  num_planes : Nat
  planes : List FramePlane
deriving DecidableEq, Repr

/-- Per-plane subresource layout passed to image creation
(offset, size, row_pitch as in the source; array/depth pitch omitted as
they are constantly None). -/
structure SubresourceLayout where
  offset : Nat
  size : Nat
  row_pitch : Nat
deriving DecidableEq, Repr

/-- The image object created by RawImage::new in dmabuf_texture: 2D,
sampled + transfer-src usage, DRM-format-modifier tiling, with the
declared modifier and plane layouts. -/
structure RawImage where
  format : Format
  extent : List Nat
  modifiers : List Nat
  plane_layouts : List SubresourceLayout
deriving DecidableEq, Repr

/-- The fourcc match at the top of dmabuf_texture; none models the
panic arm for an unrecognized code. -/
def dmabuf_format (fourcc : Nat) : Option Format :=
  if fourcc = DRM_FORMAT_ABGR8888 then some Format.R8G8B8A8_UNORM
  else if fourcc = DRM_FORMAT_XBGR8888 then some Format.R8G8B8A8_UNORM
  else if fourcc = DRM_FORMAT_ARGB8888 then some Format.B8G8R8A8_UNORM
  else if fourcc = DRM_FORMAT_XRGB8888 then some Format.B8G8R8A8_UNORM
  else none

/-- The layouts loop of graphics.rs:422-434: indexes frame.planes[i]
for i in 0..num_planes into the fixed plane array of the descriptor.
When num_planes exceeds the array length the indexing panics out of
bounds (none); within bounds the loop reads exactly the first
num_planes entries. -/
def dmabuf_layouts (frame : DmabufFrame) : Option (List SubresourceLayout) :=
  if frame.num_planes ≤ frame.planes.length then
    some ((frame.planes.take frame.num_planes).map fun plane =>
      { offset := plane.offset, size := 0, row_pitch := plane.stride })
  else none

/-- The image created by RawImage::new from the frame, the mapped
format and the declared plane layouts. -/
def dmabuf_image (frame : DmabufFrame) (format : Format)
    (layouts : List SubresourceLayout) : RawImage :=
  { format := format
    extent := [frame.format.width, frame.format.height, 1]
    modifiers := [frame.format.modifier]
    plane_layouts := layouts }

/-- Observable steps of dmabuf_texture, in source order. -/
inductive ImportEvent
  | format_mapped (f : Format)
  | fatal_format (fourcc : Nat)
  | panic_plane_index (len : Nat) (idx : Nat)
  | image_created (img : RawImage)
  | memory_type_selected
  | log_error (msg : String)
  | fd_duplicated (orig : Nat) (dup : Nat)
  | memory_imported (fd : Nat)
  | image_bound
  | bind_failed
deriving DecidableEq, Repr

/-- Result value of dmabuf_texture: a panic, a logged None, a silent
None on bind failure, or the bound image with the fd its memory was
imported from. -/
inductive ImportOutcome
  | fatal (msg : String)
  | none_logged (msg : String)
  | none_bind_failed
  | some_image (img : RawImage) (memory_fd : Nat)
deriving DecidableEq, Repr

/-- Full effect of one dmabuf_texture call: its return value, the
file-descriptor table after the call, and the ordered event trace. -/
structure ImportResult where
  outcome : ImportOutcome
  open_fds : Finset Nat
  events : List ImportEvent
deriving DecidableEq

/-- A descriptor not present in the table: dup(2) always returns a
fresh descriptor. -/
def fresh_fd (fds : Finset Nat) : Nat := fds.sup id + 1

/-- WlxGraphics::dmabuf_texture (graphics.rs:411-505). Mirrors the
source order: fourcc match (panic on unrecognized), plane-layout
vector (panic out of bounds when num_planes exceeds the descriptor's
fixed plane array), RawImage::new, memory-type query, then the
plane-count check, then the fd check, then fd duplication
(File::from_raw_fd / try_clone / into_raw_fd leaves the original
open), memory import of the duplicate, and bind_memory whose success
is the bind_ok parameter. -/
def dmabuf_texture (bind_ok : Bool) (open_fds : Finset Nat)
    (frame : DmabufFrame) : ImportResult :=
  match dmabuf_format frame.format.fourcc with
  | none =>
      { outcome := .fatal ("Unsupported dmabuf format " ++ toString frame.format.fourcc)
        open_fds := open_fds
        events := [.fatal_format frame.format.fourcc] }
  | some format =>
    match dmabuf_layouts frame with
    | none =>
        { outcome := .fatal ("index out of bounds: the len is " ++
            toString frame.planes.length ++ " but the index is " ++
            toString frame.planes.length)
          open_fds := open_fds
          events := [.format_mapped format,
            .panic_plane_index frame.planes.length frame.planes.length] }
    | some layouts =>
      let image := dmabuf_image frame format layouts
      let ev0 : List ImportEvent :=
        [.format_mapped format, .image_created image, .memory_type_selected]
      if frame.num_planes ≠ 1 then
        { outcome := .none_logged "Unsupported number of DMA-buf planes"
          open_fds := open_fds
          events := ev0 ++ [.log_error "Unsupported number of DMA-buf planes"] }
      else
        match (frame.planes.getD 0 default).fd with
        | none =>
            { outcome := .none_logged "DMA-buf plane has no FD"
              open_fds := open_fds
              events := ev0 ++ [.log_error "DMA-buf plane has no FD"] }
        | some fd =>
            let new_fd := fresh_fd open_fds
            let fds1 := insert new_fd open_fds
            if bind_ok then
              { outcome := .some_image image new_fd
                open_fds := fds1
                events := ev0 ++ [.fd_duplicated fd new_fd,
                  .memory_imported new_fd, .image_bound] }
            else
              { outcome := .none_bind_failed
                open_fds := fds1
                events := ev0 ++ [.fd_duplicated fd new_fd,
                  .memory_imported new_fd, .bind_failed] }

/-! ## Physical-device selection (WlxGraphics::new, graphics.rs:140-193) -/

/-- Vulkan physical-device classes (vulkano PhysicalDeviceType). -/
inductive PhysicalDeviceType
  | DiscreteGpu
  | IntegratedGpu
  | VirtualGpu
  | Cpu
  | Other
deriving DecidableEq, Repr

/-- The min_by_key ranking of graphics.rs:185-192. -/
def device_type_rank : PhysicalDeviceType → Nat
  | .DiscreteGpu => 0
  | .IntegratedGpu => 1
  | .VirtualGpu => 2
  | .Cpu => 3
  | .Other => 4

/-- One queue family of a physical device: whether its flags include
GRAPHICS, and whether surface_support holds for the requested surface. -/
structure QueueFamilyProperties where
  graphics : Bool
  present : Bool
deriving DecidableEq, Repr

/-- A physical device: class, supported extension names, queue
families in index order. -/
structure PhysicalDevice where
  device_type : PhysicalDeviceType
  supported_extensions : Finset String
  queue_families : List QueueFamilyProperties
deriving DecidableEq

/-- The fixed device extensions of graphics.rs:140-147, united with
the runtime extensions of each candidate device. -/
def fixed_device_extensions : Finset String :=
  {"khr_swapchain", "khr_external_memory", "khr_external_memory_fd",
   "ext_external_memory_dma_buf", "ext_image_drm_format_modifier"}

/-- First filter_map of the selection chain: keep a device iff its
supported extensions contain runtime ∪ fixed, pairing it with that
required set (graphics.rs:161-174). -/
def extension_filter (runtime_exts : PhysicalDevice → Finset String)
    (devices : List PhysicalDevice) : List (PhysicalDevice × Finset String) :=
  devices.filterMap fun p =>
    let my_extensions := runtime_exts p ∪ fixed_device_extensions
    if my_extensions ⊆ p.supported_extensions then some (p, my_extensions)
    else none

/-- Second filter_map: keep a device iff some queue family supports
graphics and presentation, pairing it with the first such family index
(graphics.rs:175-184). -/
def queue_filter (l : List (PhysicalDevice × Finset String)) :
    List (PhysicalDevice × Finset String × Nat) :=
  l.filterMap fun pe =>
    (pe.1.queue_families.findIdx? fun q => q.graphics && q.present).map
      fun i => (pe.1, pe.2, i)

/-- A selection candidate surviving both filters. -/
abbrev Candidate := PhysicalDevice × Finset String × Nat

/-- Rank of a candidate, as fed to min_by_key. -/
def candidate_rank (c : Candidate) : Nat := device_type_rank c.1.device_type

/-- Rust Iterator::min_by_key: the first element attaining the minimal
key, or none on an empty iterator. -/
def min_by_key_rank : List Candidate → Option Candidate
  | [] => none
  | d :: ds =>
    match min_by_key_rank ds with
    | none => some d
    | some e => if candidate_rank e < candidate_rank d then some e else some d

/-- Survivors of both selection filters, in enumeration order. -/
def survivors (runtime_exts : PhysicalDevice → Finset String)
    (devices : List PhysicalDevice) : List Candidate :=
  queue_filter (extension_filter runtime_exts devices)

/-- The whole selection chain of WlxGraphics::new; none models the
fatal expect on graphics.rs:193. -/
def select_physical_device (runtime_exts : PhysicalDevice → Finset String)
    (devices : List PhysicalDevice) : Option Candidate :=
  min_by_key_rank (survivors runtime_exts devices)

/-! ## Buffer upload (upload_buffer, upload_verts; graphics.rs:352-409) -/

/-- Buffer usage tags occurring in the source. -/
inductive BufferUsage
  | vertex_buffer
  | index_buffer
  | uniform_buffer
  | transfer_src
deriving DecidableEq, Repr

/-- Memory-type filter used at the buffer call sites. -/
inductive MemoryTypePreference
  | prefer_host_sequential_write
  | prefer_device_sequential_write
deriving DecidableEq, Repr

/-- A typed GPU buffer holding a sequence of elements. -/
structure Subbuffer (T : Type) where
  usage : BufferUsage
  memory : MemoryTypePreference
  data : List T

/-- WlxGraphics::upload_buffer (graphics.rs:391-409):
Buffer::from_iter copies the cloned contents into host-visible
(PREFER_HOST | HOST_SEQUENTIAL_WRITE) memory before returning. -/
def upload_buffer {T : Type} (usage : BufferUsage) (contents : List T) :
    Subbuffer T :=
  { usage := usage
    memory := .prefer_host_sequential_write
    data := contents }

/-- Reading an element sequence back from a host-visible buffer. -/
def read_back {T : Type} (b : Subbuffer T) : List T := b.data

/-- Reading a buffer back as raw bytes, given the bit-exact encoding
of one element. -/
def read_back_bytes {T : Type} (enc : T → List (Fin 256)) (b : Subbuffer T) :
    List (Fin 256) :=
  (b.data.map enc).flatten

/-- Vertex layout of the source: 2D position then 2D UV, f32 pairs
modelled as exact rationals. -/
structure Vert2Uv where
  in_pos : ℚ × ℚ
  in_uv : ℚ × ℚ
deriving DecidableEq, Repr

/-- WlxGraphics::upload_verts (graphics.rs:352-389). -/
def upload_verts (width height x y w h : ℚ) : Subbuffer Vert2Uv :=
  let rw := width
  let rh := height
  let x0 := x / rw
  let y0 := y / rh
  let x1 := w / rw + x0
  let y1 := h / rh + y0
  upload_buffer .vertex_buffer
    [ { in_pos := (x0, y0), in_uv := (0, 0) },
      { in_pos := (x0, y1), in_uv := (0, 1) },
      { in_pos := (x1, y0), in_uv := (1, 0) },
      { in_pos := (x1, y1), in_uv := (1, 1) } ]

/-! ## Pass recording (WlxPass::new, graphics.rs:986-1048) -/

/-- Pipeline bind point used by the pass. -/
inductive PipelineBindPoint
  | Graphics
deriving DecidableEq, Repr

/-- Dynamic viewport state: offset, extent, depth range. -/
structure Viewport where
  offset : ℚ × ℚ
  extent : ℚ × ℚ
  depth_range : ℚ × ℚ
deriving DecidableEq, Repr

/-- Commands recordable into the secondary command buffer of a pass. -/
inductive DrawCommand
  | set_viewport (first_viewport : Nat) (viewports : List Viewport)
  | bind_pipeline_graphics
  | bind_descriptor_sets (bind_point : PipelineBindPoint) (first_set : Nat)
      (num_sets : Nat)
  | bind_vertex_buffers (binding : Nat) (verts : List Vert2Uv)
  | bind_index_buffer (indices : List Nat)
  | draw_indexed (index_count : Nat) (instance_count : Nat) (first_index : Nat)
      (vertex_offset : Nat) (first_instance : Nat)
deriving DecidableEq, Repr

/-- Recognizer for the indexed-draw command. -/
def DrawCommand.is_draw_indexed : DrawCommand → Bool
  | .draw_indexed _ _ _ _ _ => true
  | _ => false

/-- Secondary command-buffer builder: the ordered list of recorded
commands. -/
structure SecondaryBuilder where
  commands : List DrawCommand

/-- AutoCommandBufferBuilder::set_viewport. -/
def SecondaryBuilder.set_viewport (b : SecondaryBuilder) (first : Nat)
    (vps : List Viewport) : SecondaryBuilder :=
  { commands := b.commands ++ [.set_viewport first vps] }

/-- AutoCommandBufferBuilder::bind_pipeline_graphics. -/
def SecondaryBuilder.bind_pipeline_graphics (b : SecondaryBuilder) :
    SecondaryBuilder :=
  { commands := b.commands ++ [.bind_pipeline_graphics] }

/-- AutoCommandBufferBuilder::bind_descriptor_sets. -/
def SecondaryBuilder.bind_descriptor_sets (b : SecondaryBuilder)
    (bp : PipelineBindPoint) (first_set : Nat) (num_sets : Nat) :
    SecondaryBuilder :=
  { commands := b.commands ++ [.bind_descriptor_sets bp first_set num_sets] }

/-- AutoCommandBufferBuilder::bind_vertex_buffers. -/
def SecondaryBuilder.bind_vertex_buffers (b : SecondaryBuilder) (binding : Nat)
    (verts : List Vert2Uv) : SecondaryBuilder :=
  { commands := b.commands ++ [.bind_vertex_buffers binding verts] }

/-- AutoCommandBufferBuilder::bind_index_buffer. -/
def SecondaryBuilder.bind_index_buffer (b : SecondaryBuilder)
    (indices : List Nat) : SecondaryBuilder :=
  { commands := b.commands ++ [.bind_index_buffer indices] }

/-- AutoCommandBufferBuilder::draw_indexed. -/
def SecondaryBuilder.draw_indexed (b : SecondaryBuilder)
    (index_count instance_count first_index vertex_offset first_instance : Nat) :
    SecondaryBuilder :=
  { commands := b.commands ++
      [.draw_indexed index_count instance_count first_index vertex_offset
        first_instance] }

/-- A recorded pass: its immutable secondary command buffer. -/
structure WlxPass where
  command_buffer : List DrawCommand

/-- WlxPass::new (graphics.rs:986-1048): records viewport, pipeline,
descriptor sets at set index 0, vertex buffer at binding 0, index
buffer, and one draw_indexed over the whole index buffer with
instance count 1. -/
def WlxPass.new (dimensions : ℚ × ℚ) (vertex_buffer : Subbuffer Vert2Uv)
    (index_buffer : Subbuffer Nat) (num_descriptor_sets : Nat) : WlxPass :=
  let viewport : Viewport :=
    { offset := (0, 0), extent := dimensions, depth_range := (0, 1) }
  let builder : SecondaryBuilder := { commands := [] }
  let builder :=
    ((((((builder.set_viewport 0 [viewport]).bind_pipeline_graphics
      ).bind_descriptor_sets .Graphics 0 num_descriptor_sets
      ).bind_vertex_buffers 0 vertex_buffer.data
      ).bind_index_buffer index_buffer.data
      ).draw_indexed index_buffer.data.length 1 0 0 0)
  { command_buffer := builder.commands }

/-! ## Submission and synchronization (WlxCommandBuffer::build_and_execute_now,
graphics.rs:741-750)

The source calls flush() and cleanup_finished() on the
CommandBufferExecFuture returned by build_and_execute, then lets the
future go out of scope. Per vulkano semantics: execute creates the
future without submitting; flush submits the recording to the queue
without waiting; cleanup_finished releases resources only of futures
that already finished; and the future's destructor, run at scope exit
before build_and_execute_now returns, flushes if needed, blocks the
host until the queue is idle (which completes the submitted
recording), signals the future finished and drops its resources. -/

/-- Host-visible actions of the submit path. -/
inductive HostAction
  | queue_submit
  | wait_queue_idle
  | signal_finished
deriving DecidableEq, Repr

/-- State of one CommandBufferExecFuture and its recording. -/
structure SyncState where
  flushed : Bool
  device_complete : Bool
  host_blocked : Bool
  transient_released : Bool
deriving DecidableEq, Repr

/-- GpuFuture::flush: submit the recording if not already submitted;
never waits for the device. -/
def GpuFuture.flush (s : SyncState) : SyncState × List HostAction :=
  if s.flushed then (s, [])
  else ({ s with flushed := true }, [.queue_submit])

/-- GpuFuture::cleanup_finished: releases transient resources only
when the device already completed; never blocks. -/
def GpuFuture.cleanup_finished (s : SyncState) : SyncState × List HostAction :=
  if s.device_complete then ({ s with transient_released := true }, [])
  else (s, [])

/-- Destructor of CommandBufferExecFuture at scope exit: if the future
is not yet finished, flush, block until the queue is idle (the device
then has completed the recording), signal finished and release the
future's resources. -/
def GpuFuture.drop_future (s : SyncState) : SyncState × List HostAction :=
  if s.device_complete then ({ s with transient_released := true }, [])
  else
    let r := GpuFuture.flush s
    let s2 : SyncState :=
      { r.1 with
        device_complete := true
        host_blocked := true
        transient_released := true }
    (s2, r.2 ++ [.wait_queue_idle, .signal_finished])

/-- WlxCommandBuffer::build_and_execute (graphics.rs:741-744): builds
the recording and creates the exec future; submission is deferred to
the first flush. -/
def build_and_execute : SyncState :=
  { flushed := false, device_complete := false, host_blocked := false,
    transient_released := false }

/-- WlxCommandBuffer::build_and_execute_now (graphics.rs:746-750):
flush, cleanup_finished, then the implicit destructor of the future at
the end of the function body. Returns the final state and the ordered
host-action trace. -/
def build_and_execute_now : SyncState × List HostAction :=
  let exec := build_and_execute
  let r1 := GpuFuture.flush exec
  let r2 := GpuFuture.cleanup_finished r1.1
  let r3 := GpuFuture.drop_future r2.1
  (r3.1, r1.2 ++ r2.2 ++ r3.2)

/-! ## Concrete inputs used to instantiate the theorems -/

/-- A queue family supporting both graphics and presentation. -/
def qf_ok : QueueFamilyProperties := { graphics := true, present := true }

/-- No runtime device extensions requested by the VR backend. -/
def no_runtime_exts : PhysicalDevice → Finset String := fun _ => ∅

/-- A qualifying virtual GPU. -/
def dev_virtual : PhysicalDevice :=
  { device_type := .VirtualGpu
    supported_extensions := fixed_device_extensions
    queue_families := [qf_ok] }

/-- A qualifying discrete GPU. -/
def dev_discrete : PhysicalDevice :=
  { device_type := .DiscreteGpu
    supported_extensions := fixed_device_extensions
    queue_families := [qf_ok] }

/-- A qualifying integrated GPU. -/
def dev_integrated : PhysicalDevice :=
  { device_type := .IntegratedGpu
    supported_extensions := fixed_device_extensions
    queue_families := [qf_ok] }

/-- Three otherwise-qualifying devices of classes virtual, discrete,
integrated, in enumeration order. -/
def demo_devices : List PhysicalDevice :=
  [dev_virtual, dev_discrete, dev_integrated]

/-- The candidate the selection chain produces on demo_devices. -/
def demo_selected : Candidate := (dev_discrete, ∅ ∪ fixed_device_extensions, 0)

/-- The only discrete device, but its extension set misses
khr_swapchain from the required set. -/
def lonely_discrete : PhysicalDevice :=
  { device_type := .DiscreteGpu
    supported_extensions :=
      {"khr_external_memory", "khr_external_memory_fd",
       "ext_external_memory_dma_buf", "ext_image_drm_format_modifier"}
    queue_families := [qf_ok] }

/-- A frame with a supported fourcc but two planes. -/
def two_plane_frame : DmabufFrame :=
  { format := { width := 64, height := 64, fourcc := DRM_FORMAT_ABGR8888,
                modifier := 0 }
    num_planes := 2
    planes := [{ fd := some 5, offset := 0, stride := 256 },
               { fd := some 6, offset := 0, stride := 256 }] }

/-- A frame with a supported fourcc claiming five planes over the
four-slot plane array that wlx_capture frame descriptors carry. -/
def five_plane_frame : DmabufFrame :=
  { format := { width := 64, height := 64, fourcc := DRM_FORMAT_ABGR8888,
                modifier := 0 }
    num_planes := 5
    planes := [default, default, default, default] }

/-- A frame with the unrecognized fourcc 0. -/
def c5_frame : DmabufFrame :=
  { format := { width := 64, height := 64, fourcc := 0, modifier := 0 }
    num_planes := 1
    planes := [{ fd := some 5, offset := 0, stride := 256 }] }

/-- A frame with the unrecognized fourcc 1 and two planes: both
rejection conditions hold, yet the format check fires first. -/
def c9_frame : DmabufFrame :=
  { format := { width := 64, height := 64, fourcc := 1, modifier := 0 }
    num_planes := 2
    planes := [] }

/-- A well-formed single-plane frame whose plane fd is 5. -/
def good_frame : DmabufFrame :=
  { format := { width := 64, height := 64, fourcc := DRM_FORMAT_ABGR8888,
                modifier := 0 }
    num_planes := 1
    planes := [{ fd := some 5, offset := 0, stride := 256 }] }

/-! ## Helper lemmas -/

/-- dup(2) in the embedding returns a descriptor not currently open. -/
theorem fresh_fd_not_mem (fds : Finset Nat) : fresh_fd fds ∉ fds := by
  intro h
  have hle : fresh_fd fds ≤ fds.sup id := Finset.le_sup (f := id) h
  simp only [fresh_fd] at hle
  omega

/-- min_by_key yields none exactly on the empty list. -/
theorem min_by_key_rank_eq_none {l : List Candidate} :
    min_by_key_rank l = none ↔ l = [] := by
  cases l with
  | nil => simp [min_by_key_rank]
  | cons d ds =>
    simp only [min_by_key_rank]
    cases h : min_by_key_rank ds with
    | none => simp
    | some e =>
      by_cases hlt : candidate_rank e < candidate_rank d <;> simp [hlt]

/-- min_by_key returns the first element attaining the minimal key:
the list splits around the result, everything before it has strictly
larger rank, everything after it has no smaller rank. -/
theorem min_by_key_rank_spec {l : List Candidate} {d : Candidate}
    (h : min_by_key_rank l = some d) :
    ∃ l1 l2, l = l1 ++ d :: l2
      ∧ (∀ e ∈ l1, candidate_rank d < candidate_rank e)
      ∧ (∀ e ∈ l2, candidate_rank d ≤ candidate_rank e) := by
  induction l generalizing d with
  | nil => simp [min_by_key_rank] at h
  | cons a ls ih =>
    rw [min_by_key_rank] at h
    cases hm : min_by_key_rank ls with
    | none =>
      rw [hm] at h
      obtain rfl : a = d := by simpa using h
      have hnil : ls = [] := min_by_key_rank_eq_none.mp hm
      exact ⟨[], [], by simp [hnil], by simp, by simp⟩
    | some e =>
      rw [hm] at h
      dsimp only at h
      by_cases hlt : candidate_rank e < candidate_rank a
      · rw [if_pos hlt] at h
        obtain rfl : e = d := by simpa using h
        obtain ⟨l1, l2, hsplit, h1, h2⟩ := ih hm
        refine ⟨a :: l1, l2, by simp [hsplit], ?_, h2⟩
        intro x hx
        rcases List.mem_cons.mp hx with rfl | hx
        · exact hlt
        · exact h1 x hx
      · rw [if_neg hlt] at h
        obtain rfl : a = d := by simpa using h
        obtain ⟨l1, l2, hsplit, h1, h2⟩ := ih hm
        have hae : candidate_rank a ≤ candidate_rank e := Nat.le_of_not_lt hlt
        refine ⟨[], ls, by simp, by simp, ?_⟩
        intro x hx
        rw [hsplit] at hx
        rcases List.mem_append.mp hx with hx1 | hx2
        · exact le_of_lt (lt_of_le_of_lt hae (h1 x hx1))
        · rcases List.mem_cons.mp hx2 with rfl | hx2
          · exact hae
          · exact le_trans hae (h2 x hx2)

/-- Membership in the extension filter, unfolded. -/
theorem mem_extension_filter {runtime_exts : PhysicalDevice → Finset String}
    {devices : List PhysicalDevice} {p : PhysicalDevice} {my : Finset String} :
    (p, my) ∈ extension_filter runtime_exts devices ↔
      p ∈ devices ∧ my = runtime_exts p ∪ fixed_device_extensions ∧
        my ⊆ p.supported_extensions := by
  simp only [extension_filter, List.mem_filterMap]
  constructor
  · rintro ⟨a, ha, hfa⟩
    by_cases hsub : runtime_exts a ∪ fixed_device_extensions ⊆ a.supported_extensions
    · rw [if_pos hsub] at hfa
      obtain ⟨rfl, rfl⟩ : a = p ∧ runtime_exts a ∪ fixed_device_extensions = my := by
        simpa using hfa
      exact ⟨ha, rfl, hsub⟩
    · rw [if_neg hsub] at hfa
      cases hfa
  · rintro ⟨hp, rfl, hsub⟩
    exact ⟨p, hp, by rw [if_pos hsub]⟩

/-! ## Claims -/

/-- C1 counterexample: a frame with a supported fourcc and plane
count 5 - more than the descriptor's four plane slots - has a plane
count different from 1, yet the import aborts fatally in the layout
loop instead of returning a logged None. -/
theorem claim_c1_counterexample :
    five_plane_frame.num_planes ≠ 1
    ∧ dmabuf_format five_plane_frame.format.fourcc =
        some Format.R8G8B8A8_UNORM
    ∧ (dmabuf_texture true ∅ five_plane_frame).outcome =
        ImportOutcome.fatal
          "index out of bounds: the len is 4 but the index is 4" := by
  decide

/-- C1 (amended): for every frame descriptor with a fourcc from the
supported set whose plane count does not exceed the descriptor's
plane array, dmabuf_texture returns no result with an error-level log
when the plane count is not 1, likewise when the single plane has no
file descriptor, and in no case raises a fatal error; in particular
plane_count = 2 yields a logged None and no panic. A plane count
beyond the plane array instead panics in the layout loop before the
plane-count check. -/
theorem claim_c1 (bind_ok : Bool) (fds : Finset Nat) (frame : DmabufFrame)
    (f : Format) (hf : dmabuf_format frame.format.fourcc = some f)
    (hlen : frame.num_planes ≤ frame.planes.length) :
    (frame.num_planes ≠ 1 →
      (dmabuf_texture bind_ok fds frame).outcome =
        .none_logged "Unsupported number of DMA-buf planes")
    ∧ (frame.num_planes = 1 → (frame.planes.getD 0 default).fd = none →
      (dmabuf_texture bind_ok fds frame).outcome =
        .none_logged "DMA-buf plane has no FD")
    ∧ ∀ msg, (dmabuf_texture bind_ok fds frame).outcome ≠ .fatal msg := by
  have hl : dmabuf_layouts frame =
      some ((frame.planes.take frame.num_planes).map fun plane =>
        { offset := plane.offset, size := 0, row_pitch := plane.stride }) := by
    simp [dmabuf_layouts, hlen]
  refine ⟨fun hn => ?_, fun hn1 hfd => ?_, fun msg => ?_⟩
  · simp [dmabuf_texture, hf, hl, hn]
  · simp only [dmabuf_texture, hf, hl]
    rw [if_neg (fun h => h hn1), hfd]
  · simp only [dmabuf_texture, hf, hl]
    split
    · simp
    · split
      · simp
      · split <;> simp

/-- C1 witness: a two-plane frame with a supported fourcc is rejected
with the plane-count log message. -/
theorem claim_c1_witness :
    (dmabuf_texture true ∅ two_plane_frame).outcome =
      ImportOutcome.none_logged "Unsupported number of DMA-buf planes" :=
  (claim_c1 true ∅ two_plane_frame Format.R8G8B8A8_UNORM (by decide)
    (by decide)).1 (by decide)

/-- C2: build_and_execute_now submits the finished recording and, via
the destructor of the exec future that runs before the function
returns, blocks the host until the device completes the queue, then
releases the transient resources: at return the recording is
submitted and device-complete, a blocking wait was performed, the
transients are released, and the host-action trace is submit, then
wait-for-idle, then signal-finished. -/
theorem claim_c2 :
    (build_and_execute_now.1.flushed = true
     ∧ build_and_execute_now.1.device_complete = true
     ∧ build_and_execute_now.1.host_blocked = true
     ∧ build_and_execute_now.1.transient_released = true)
    ∧ build_and_execute_now.2 =
        [HostAction.queue_submit, HostAction.wait_queue_idle,
         HostAction.signal_finished] := by
  decide

/-- C3: the device-class ranks are discrete 0, integrated 1,
virtual 2, software 3, other 4, and any selected device is a
first-position minimum of that rank among the surviving candidates,
ties falling to enumeration order. -/
theorem claim_c3 :
    (device_type_rank .DiscreteGpu = 0 ∧ device_type_rank .IntegratedGpu = 1
     ∧ device_type_rank .VirtualGpu = 2 ∧ device_type_rank .Cpu = 3
     ∧ device_type_rank .Other = 4)
    ∧ ∀ runtime_exts devices d,
        select_physical_device runtime_exts devices = some d →
          (∀ e ∈ survivors runtime_exts devices,
            candidate_rank d ≤ candidate_rank e)
          ∧ ∃ l1 l2, survivors runtime_exts devices = l1 ++ d :: l2
              ∧ ∀ e ∈ l1, candidate_rank d < candidate_rank e := by
  refine ⟨⟨rfl, rfl, rfl, rfl, rfl⟩, ?_⟩
  intro runtime_exts devices d h
  have h2 : min_by_key_rank (survivors runtime_exts devices) = some d := h
  obtain ⟨l1, l2, hsplit, hbefore, hafter⟩ := min_by_key_rank_spec h2
  refine ⟨?_, l1, l2, hsplit, hbefore⟩
  intro e he
  rw [hsplit] at he
  rcases List.mem_append.mp he with hx | hx
  · exact le_of_lt (hbefore e hx)
  · rcases List.mem_cons.mp hx with rfl | hx
    · exact le_refl _
    · exact hafter e hx

/-- C3 witness: among qualifying devices of classes virtual, discrete,
integrated, the discrete device is chosen, and its rank is no larger
than the virtual survivor's. -/
theorem claim_c3_witness :
    select_physical_device no_runtime_exts demo_devices = some demo_selected
    ∧ demo_selected.1.device_type = PhysicalDeviceType.DiscreteGpu
    ∧ candidate_rank demo_selected ≤
        candidate_rank (dev_virtual, ∅ ∪ fixed_device_extensions, 0) := by
  have hsel : select_physical_device no_runtime_exts demo_devices =
      some demo_selected := by decide
  refine ⟨hsel, by decide, ?_⟩
  exact (claim_c3.2 no_runtime_exts demo_devices demo_selected hsel).1
    (dev_virtual, ∅ ∪ fixed_device_extensions, 0) (by decide)

/-- C4: a device survives the extension filter exactly when its
supported extensions contain the union of the caller-supplied runtime
extensions and the fixed required set; a sole discrete device missing
khr_swapchain is excluded and selection fails. -/
theorem claim_c4 :
    (∀ runtime_exts devices (p : PhysicalDevice) (my : Finset String),
      (p, my) ∈ extension_filter runtime_exts devices ↔
        p ∈ devices ∧ my = runtime_exts p ∪ fixed_device_extensions ∧
          my ⊆ p.supported_extensions)
    ∧ extension_filter no_runtime_exts [lonely_discrete] = []
    ∧ select_physical_device no_runtime_exts [lonely_discrete] = none := by
  exact ⟨fun _ _ _ _ => mem_extension_filter, by decide, by decide⟩

/-- C5: the fourcc mapping is exact on the supported set - ABGR8888
and XBGR8888 to RGBA8 unorm, ARGB8888 and XRGB8888 to BGRA8 unorm -
and any other code makes dmabuf_texture abort with the diagnostic
panic message. -/
theorem claim_c5 :
    dmabuf_format DRM_FORMAT_ABGR8888 = some Format.R8G8B8A8_UNORM
    ∧ dmabuf_format DRM_FORMAT_XBGR8888 = some Format.R8G8B8A8_UNORM
    ∧ dmabuf_format DRM_FORMAT_ARGB8888 = some Format.B8G8R8A8_UNORM
    ∧ dmabuf_format DRM_FORMAT_XRGB8888 = some Format.B8G8R8A8_UNORM
    ∧ ∀ fourcc, fourcc ≠ DRM_FORMAT_ABGR8888 → fourcc ≠ DRM_FORMAT_XBGR8888 →
        fourcc ≠ DRM_FORMAT_ARGB8888 → fourcc ≠ DRM_FORMAT_XRGB8888 →
        dmabuf_format fourcc = none
        ∧ ∀ bind_ok fds frame, frame.format.fourcc = fourcc →
            (dmabuf_texture bind_ok fds frame).outcome =
              .fatal ("Unsupported dmabuf format " ++ toString fourcc) := by
  refine ⟨by decide, by decide, by decide, by decide, ?_⟩
  intro fourcc h1 h2 h3 h4
  have hnone : dmabuf_format fourcc = none := by
    simp [dmabuf_format, h1, h2, h3, h4]
  refine ⟨hnone, ?_⟩
  intro bind_ok fds frame hc
  subst hc
  simp [dmabuf_texture, hnone]

/-- C5 witness: fourcc 0 is unmapped and a frame carrying it panics. -/
theorem claim_c5_witness :
    dmabuf_format 0 = none
    ∧ (dmabuf_texture true ∅ c5_frame).outcome =
        ImportOutcome.fatal ("Unsupported dmabuf format " ++ toString 0) := by
  have h := claim_c5.2.2.2.2 0 (by decide) (by decide) (by decide) (by decide)
  exact ⟨h.1, h.2 true ∅ c5_frame rfl⟩

/-- C6: upload_verts computes x0 = x/width, y0 = y/height,
x1 = w/width + x0, y1 = h/height + y0 and uploads exactly the four
vertices (x0,y0)-(0,0), (x0,y1)-(0,1), (x1,y0)-(1,0), (x1,y1)-(1,1);
at width 200, height 100, x 10, y 10, w 50, h 50 the corners are
(0.05, 0.1) and (0.3, 0.6). -/
theorem claim_c6 :
    (∀ width height x y w h : ℚ,
      (upload_verts width height x y w h).data =
        [ { in_pos := (x / width, y / height), in_uv := (0, 0) },
          { in_pos := (x / width, h / height + y / height), in_uv := (0, 1) },
          { in_pos := (w / width + x / width, y / height), in_uv := (1, 0) },
          { in_pos := (w / width + x / width, h / height + y / height),
            in_uv := (1, 1) } ]
      ∧ (upload_verts width height x y w h).data.length = 4)
    ∧ (upload_verts 200 100 10 10 50 50).data =
        [ { in_pos := (0.05, 0.1), in_uv := (0, 0) },
          { in_pos := (0.05, 0.6), in_uv := (0, 1) },
          { in_pos := (0.3, 0.1), in_uv := (1, 0) },
          { in_pos := (0.3, 0.6), in_uv := (1, 1) } ] := by
  refine ⟨fun width height x y w h => ⟨rfl, rfl⟩, ?_⟩
  simp only [upload_verts, upload_buffer, List.cons.injEq, Vert2Uv.mk.injEq,
    Prod.mk.injEq]
  norm_num

/-- C7: a pass built from an index buffer of length N records, in
order, the viewport for the given dimensions, the pipeline bind, the
descriptor sets at set index 0, the vertex buffer at binding 0, the
index buffer, and exactly one indexed draw with index count N and
instance count 1. -/
theorem claim_c7 (dimensions : ℚ × ℚ) (vertex_buffer : Subbuffer Vert2Uv)
    (index_buffer : Subbuffer Nat) (num_descriptor_sets : Nat) :
    (WlxPass.new dimensions vertex_buffer index_buffer
        num_descriptor_sets).command_buffer =
      [ .set_viewport 0 [Viewport.mk (0, 0) dimensions (0, 1)],
        .bind_pipeline_graphics,
        .bind_descriptor_sets .Graphics 0 num_descriptor_sets,
        .bind_vertex_buffers 0 vertex_buffer.data,
        .bind_index_buffer index_buffer.data,
        .draw_indexed index_buffer.data.length 1 0 0 0 ]
    ∧ ((WlxPass.new dimensions vertex_buffer index_buffer
          num_descriptor_sets).command_buffer.countP
        DrawCommand.is_draw_indexed) = 1 :=
  ⟨rfl, rfl⟩

/-- C8: the generic upload path copies the caller's element sequence
verbatim: reading the buffer back yields the same elements, the same
bytes under any bit-exact element encoding, and the element count
equals the source length. -/
theorem claim_c8 (T : Type) (enc : T → List (Fin 256)) (usage : BufferUsage)
    (xs : List T) :
    read_back (upload_buffer usage xs) = xs
    ∧ read_back_bytes enc (upload_buffer usage xs) = (xs.map enc).flatten
    ∧ (upload_buffer usage xs).data.length = xs.length :=
  ⟨rfl, rfl, rfl⟩

/-- C9: the fourcc match and the image creation from the declared
plane layouts precede the plane-count and fd checks: any frame with
an unrecognized fourcc aborts fatally with no error-level log,
whatever its plane count or fds; on the recognized path, whenever the
layout loop completes, the first recorded events are the format
mapping, the image creation and the memory-type query, before any
rejection can be logged; and when the layout loop itself panics
(plane count beyond the plane array) the outcome is again fatal with
no error-level log - the recoverable rejections never preempt the
fatal paths. -/
theorem claim_c9 :
    (∀ bind_ok fds frame, dmabuf_format frame.format.fourcc = none →
      (dmabuf_texture bind_ok fds frame).outcome =
        .fatal ("Unsupported dmabuf format " ++ toString frame.format.fourcc)
      ∧ ∀ msg, ImportEvent.log_error msg ∉
          (dmabuf_texture bind_ok fds frame).events)
    ∧ (∀ bind_ok fds frame f, dmabuf_format frame.format.fourcc = some f →
        ∀ layouts, dmabuf_layouts frame = some layouts →
          (dmabuf_texture bind_ok fds frame).events.take 3 =
            [.format_mapped f, .image_created (dmabuf_image frame f layouts),
             .memory_type_selected])
    ∧ ∀ bind_ok fds frame f, dmabuf_format frame.format.fourcc = some f →
        dmabuf_layouts frame = none →
          (dmabuf_texture bind_ok fds frame).outcome =
            .fatal ("index out of bounds: the len is " ++
              toString frame.planes.length ++ " but the index is " ++
              toString frame.planes.length)
          ∧ ∀ msg, ImportEvent.log_error msg ∉
              (dmabuf_texture bind_ok fds frame).events := by
  refine ⟨?_, ?_, ?_⟩
  · intro bind_ok fds frame hf
    refine ⟨by simp [dmabuf_texture, hf], fun msg => ?_⟩
    simp [dmabuf_texture, hf]
  · intro bind_ok fds frame f hf layouts hl
    simp only [dmabuf_texture, hf, hl]
    split
    · rfl
    · split
      · rfl
      · split <;> rfl
  · intro bind_ok fds frame f hf hl
    refine ⟨by simp [dmabuf_texture, hf, hl], fun msg => ?_⟩
    simp [dmabuf_texture, hf, hl]

/-- C9 witness: a frame with unrecognized fourcc 1 and two planes
aborts fatally rather than being rejected recoverably. -/
theorem claim_c9_witness :
    (dmabuf_texture true ∅ c9_frame).outcome =
      ImportOutcome.fatal ("Unsupported dmabuf format " ++ toString 1) :=
  (claim_c9.1 true ∅ c9_frame (by decide)).1

/-- C10: dmabuf_texture closes no file descriptor - the table of open
descriptors only grows - and the memory import uses a freshly
duplicated descriptor, never the caller's: any import event carries
the fresh duplicate of the plane's descriptor, which was not
previously open, on success and on bind failure alike. -/
theorem claim_c10 (bind_ok : Bool) (fds : Finset Nat) (frame : DmabufFrame) :
    fds ⊆ (dmabuf_texture bind_ok fds frame).open_fds
    ∧ (∀ img m, (dmabuf_texture bind_ok fds frame).outcome =
          .some_image img m → m = fresh_fd fds ∧ m ∉ fds)
    ∧ ∀ o d, ImportEvent.fd_duplicated o d ∈
          (dmabuf_texture bind_ok fds frame).events →
        (frame.planes.getD 0 default).fd = some o ∧ d = fresh_fd fds ∧ d ∉ fds := by
  refine ⟨?_, ?_, ?_⟩
  · simp only [dmabuf_texture]
    split
    · exact Finset.Subset.refl fds
    · split
      · exact Finset.Subset.refl fds
      · split
        · exact Finset.Subset.refl fds
        · split
          · exact Finset.Subset.refl fds
          · split <;> exact Finset.subset_insert _ fds
  · intro img m hm
    simp only [dmabuf_texture] at hm
    split at hm
    · cases hm
    · split at hm
      · cases hm
      · split at hm
        · cases hm
        · split at hm
          · cases hm
          · split at hm
            · obtain ⟨-, rfl⟩ := ImportOutcome.some_image.inj hm
              exact ⟨rfl, fresh_fd_not_mem fds⟩
            · cases hm
  · intro o d hd
    simp only [dmabuf_texture] at hd
    split at hd
    · simp at hd
    · split at hd
      · simp at hd
      · split at hd
        · simp at hd
        · split at hd
          · simp at hd
          · rename_i hfd
            split at hd <;>
            · simp at hd
              obtain ⟨rfl, rfl⟩ := hd
              exact ⟨hfd, rfl, fresh_fd_not_mem fds⟩

/-- C10 witness: importing a frame whose plane descriptor 5 is the
only open descriptor leaves 5 open and imports the fresh duplicate 6. -/
theorem claim_c10_witness :
    (5 : Nat) ∈ (dmabuf_texture true {5} good_frame).open_fds
    ∧ (6 : Nat) = fresh_fd {5} ∧ (6 : Nat) ∉ ({5} : Finset Nat) := by
  refine ⟨(claim_c10 true {5} good_frame).1 (by decide), ?_⟩
  exact (claim_c10 true {5} good_frame).2.1
    { format := Format.R8G8B8A8_UNORM, extent := [64, 64, 1], modifiers := [0],
      plane_layouts := [{ offset := 0, size := 0, row_pitch := 256 }] }
    6 (by decide)
